import Mathlib

/-!
Verification of the Modbus RTU protocol engine of the TEV/AA sensor
repository.  The definitions below are shallow embeddings of the Python
source: bytes are `Nat` values below 256, byte strings are `List Nat`,
and fallible parsing returns `Except`.  The distinct failure messages
printed by the Python code are modelled as distinct error constructors.
-/

set_option maxRecDepth 10000

/-! ## CRC16 (from `tev_waveform_test.py`, `calculate_crc`, lines 24-43) -/

/-- One bit step of the Modbus CRC16 loop:
`if crc & 0x0001: crc = (crc >> 1) ^ 0xA001 else: crc >>= 1`. -/
def crc_update_bit (crc : Nat) : Nat :=
  if crc &&& 0x0001 ≠ 0 then (crc >>> 1) ^^^ 0xA001 else crc >>> 1

/-- Iterate the bit step (`for _ in range(8)` uses `crc_bits 8`). -/
def crc_bits : Nat → Nat → Nat
  | 0, crc => crc
  | k + 1, crc => crc_bits k (crc_update_bit crc)

/-- The 16-bit CRC accumulator after processing all bytes:
initial value 0xFFFF, each byte xored in and followed by 8 bit steps. -/
def crc16 (data : List Nat) : Nat :=
  data.foldl (fun crc byte => crc_bits 8 (crc ^^^ byte)) 0xFFFF

/-- `calculate_crc` from `tev_waveform_test.py`: returns the two CRC
bytes, low byte first, high byte second. -/
def calculate_crc (data : List Nat) : List Nat :=
  [crc16 data &&& 0xFF, (crc16 data >>> 8) &&& 0xFF]

/-- Spec-side reference definition of the CRC (refinement target),
written from the spec words: polynomial 0xA001, initial value 0xFFFF,
LSB-first per-bit processing.  One bit step tests the low bit with
arithmetic rather than bitwise operations. -/
def crcSpecBitStep (c : Nat) : Nat :=
  if c % 2 = 1 then (c / 2) ^^^ 0xA001 else c / 2

/-- Spec-side per-byte step: xor the byte in, then eight LSB-first bit
steps. -/
def crcSpecByteStep (c b : Nat) : Nat :=
  (List.range 8).foldl (fun acc _ => crcSpecBitStep acc) (c ^^^ b)

/-- Spec-side CRC16: fold over the data from initial value 0xFFFF and
emit the result low byte first. -/
def crcModbusSpec (data : List Nat) : List Nat :=
  [data.foldl crcSpecByteStep 0xFFFF % 256, data.foldl crcSpecByteStep 0xFFFF / 256 % 256]

theorem crc_update_bit_eq (c : Nat) : crc_update_bit c = crcSpecBitStep c := by
  unfold crc_update_bit crcSpecBitStep
  rw [Nat.and_one_is_mod]
  have h2 : c >>> 1 = c / 2 := by simp [Nat.shiftRight_eq_div_pow]
  rcases Nat.mod_two_eq_zero_or_one c with h | h <;> simp [h, h2]

theorem crc_byte_eq (c b : Nat) : crc_bits 8 (c ^^^ b) = crcSpecByteStep c b := by
  have hr : List.range 8 = [0, 1, 2, 3, 4, 5, 6, 7] := by rfl
  simp [crcSpecByteStep, hr, crc_bits, crc_update_bit_eq]

theorem crc16_foldl_eq (data : List Nat) :
    ∀ init : Nat,
      data.foldl (fun crc byte => crc_bits 8 (crc ^^^ byte)) init =
        data.foldl crcSpecByteStep init := by
  induction data with
  | nil => intro _; rfl
  | cons d tl ih =>
      intro init
      rw [List.foldl_cons, List.foldl_cons, crc_byte_eq, ih]

theorem calculate_crc_eq_spec (data : List Nat) :
    calculate_crc data = crcModbusSpec data := by
  unfold calculate_crc crcModbusSpec crc16
  rw [crc16_foldl_eq]
  have hand : ∀ n : Nat, n &&& 0xFF = n % 256 := by
    intro n
    have h := Nat.and_pow_two_sub_one_eq_mod n 8
    simpa using h
  have hshift : ∀ n : Nat, n >>> 8 = n / 256 := by
    intro n
    rw [Nat.shiftRight_eq_div_pow]
  rw [hand, hshift, hand]

/-! ## Frame codec (from `tev_waveform_test.py`, lines 46-120) -/

/-- `build_read_registers_request` from `tev_waveform_test.py` (lines
46-67).  Note that line 59 of the source binds `modbus_address =
start_address` without the `- 1` its own comment calls for; the embedding
reproduces that.  `struct.pack` with format `>BBHH` emits one byte, one
byte and two big-endian 16-bit fields. -/
def build_read_registers_request (device_addr start_address count : Nat) : List Nat :=
  let modbus_address := start_address
  let request := [device_addr % 256, 0x03, modbus_address / 256 % 256, modbus_address % 256,
    count / 256 % 256, count % 256]
  request ++ calculate_crc request

/-- The distinct failure cases of `parse_read_registers_response`, one per
distinct diagnostic message printed by the source before `return None`;
`indexError` models a Python `IndexError` from unguarded byte indexing. -/
inductive ParseError where
  | lengthError
  | deviceException (code : Nat)
  | functionCodeError
  | byteCountError
  | crcError
  | indexError
deriving DecidableEq, Repr

/-- One iteration of the extraction loop: `(response[i] << 8) + response[i+1]`,
with Python indexing modelled as fallible lookup. -/
def readRegisterAt (response : List Nat) (i : Nat) : Except ParseError Nat :=
  match response[i]?, response[i + 1]? with
  | some hi, some lo => .ok ((hi <<< 8) + lo)
  | _, _ => .error .indexError

/-- The extraction loop `for i in range(3, 3 + byte_count, 2)` reads one
16-bit register per step; the step count is the length of that range. -/
def readRegistersFrom (response : List Nat) : Nat → Nat → Except ParseError (List Nat)
  | _, 0 => .ok []
  | i, k + 1 =>
    match readRegisterAt response i, readRegistersFrom response (i + 2) k with
    | .ok v, .ok rest => .ok (v :: rest)
    | .error e, _ => .error e
    | .ok _, .error e => .error e

/-- `parse_read_registers_response` from `tev_waveform_test.py` (lines
70-120): length check, exception function code check, function code
check, byte count check, CRC check, then register extraction.  The loop
`range(3, 3 + byte_count, 2)` has `(byte_count + 1) / 2` iterations. -/
def parse_read_registers_response (response : List Nat) (register_count : Nat) :
    Except ParseError (List Nat) :=
  if response.length ≠ 5 + register_count * 2 then .error .lengthError
  else
    match response[1]? with
    | none => .error .indexError
    | some fc =>
      if fc = 0x83 then
        match response[2]? with
        | none => .error .indexError
        | some exception_code => .error (.deviceException exception_code)
      else if fc ≠ 0x03 then .error .functionCodeError
      else
        match response[2]? with
        | none => .error .indexError
        | some byte_count =>
          if byte_count ≠ register_count * 2 then .error .byteCountError
          else if response.drop (response.length - 2) ≠
              calculate_crc (response.take (response.length - 2)) then .error .crcError
          else readRegistersFrom response 3 ((byte_count + 1) / 2)

/-- Big-endian byte serialisation of a list of 16-bit register values,
high byte then low byte for each value. -/
def toBytesBE : List Nat → List Nat
  | [] => []
  | v :: vs => v / 256 % 256 :: v % 256 :: toBytesBE vs

/-- The well-formed read response frame described by the spec round-trip
property: `[deviceAddr, 0x03, 2n, values big-endian, CRC16 low byte
first]`.  There is no response builder in the source (responses come from
the device), so this synthetic frame follows the spec text. -/
def buildReadResponse (device_addr : Nat) (values : List Nat) : List Nat :=
  let body := device_addr :: 0x03 :: 2 * values.length :: toBytesBE values
  body ++ calculate_crc body

/-! ## Device session (from `tev_aa_sensor.py` and the duplicated class in
`tev_aa_simple_gui_v2.py`)

The pymodbus client is external; each `_read_register`/`_write_register`
call is modelled as a function of the session state, of whether a fresh
`connect()` would succeed, and of the outcome the client would report for
the exchange.  The wire traffic is returned explicitly as the list of
calls issued to the client. -/

/-- Errors raised by the sensor classes: `ConnectionError`, the `IOError`
wrapping any client failure, and `ValueError` on parameter validation. -/
inductive SensorError where
  | connectionError
  | ioError
  | validationError
deriving DecidableEq, Repr

/-- Outcome of one pymodbus client call: a normal reply carrying
registers, an exception response (`isError`), or a raised/empty reply. -/
inductive ClientOutcome where
  | ok (registers : List Nat)
  | exceptional
  | failure
deriving DecidableEq, Repr

/-- Session state of `TEVAASensor`: the active device address and the
connection flag. -/
structure SensorState where
  device_addr : Nat
  connected : Bool
deriving DecidableEq, Repr

/-- Arguments of one `read_holding_registers` client call. -/
structure ModbusReadCall where
  address : Nat
  count : Nat
  slave : Nat
deriving DecidableEq, Repr

/-- Arguments of one `write_registers` client call. -/
structure ModbusWriteCall where
  address : Nat
  values : List Nat
  slave : Nat
deriving DecidableEq, Repr

/-- Register address constants of `TEVAASensor` (doc numbering). -/
def REG_DEVICE_ADDR : Nat := 401

/-- Register address of the baud rate parameter (doc numbering). -/
def REG_BAUD_RATE : Nat := 402

/-- `TEVAASensor._read_register` from `tev_aa_sensor.py` (lines 67-93):
raises `ConnectionError` when disconnected and `connect()` fails,
otherwise issues one read at `address - 1` and either returns the
registers or wraps any failure in `IOError`. -/
def sensor_read_register (s : SensorState) (connectOk : Bool) (address count : Nat)
    (outcome : ClientOutcome) : Except SensorError (List Nat) × List ModbusReadCall :=
  if s.connected || connectOk then
    (match outcome with
      | .ok regs => .ok regs
      | _ => .error .ioError,
      [⟨address - 1, count, s.device_addr⟩])
  else (.error .connectionError, [])

/-- `TEVAASensor._write_register` from `tev_aa_sensor.py` (lines 95-121):
raises `ConnectionError` when disconnected and `connect()` fails,
otherwise issues one write at `address - 1` and either returns `True` or
wraps any failure in `IOError`. -/
def sensor_write_register (s : SensorState) (connectOk : Bool) (address : Nat)
    (values : List Nat) (outcome : ClientOutcome) :
    Except SensorError Bool × List ModbusWriteCall :=
  if s.connected || connectOk then
    (match outcome with
      | .ok _ => .ok true
      | _ => .error .ioError,
      [⟨address - 1, values, s.device_addr⟩])
  else (.error .connectionError, [])

/-- `TEVAASensor._read_register` from `tev_aa_simple_gui_v2.py` (lines
91-126): issues the read at `address` (no `- 1`, unlike its own comment
and the other variants) and catches every failure, returning `None`
instead of propagating an error. -/
def guiV2_read_register (s : SensorState) (connectOk : Bool) (address count : Nat)
    (outcome : ClientOutcome) :
    Except SensorError (Option (List Nat)) × List ModbusReadCall :=
  if s.connected || connectOk then
    (match outcome with
      | .ok regs => .ok (some regs)
      | _ => .ok none,
      [⟨address, count, s.device_addr⟩])
  else (.error .connectionError, [])

/-- `TEVAASensor.set_device_address` from `tev_aa_sensor.py` (lines
205-222): raises `ValueError` unless `1 <= address <= 247`; on a
successful write it stores the new address in the session state. -/
def set_device_address (s : SensorState) (connectOk : Bool) (address : Nat)
    (outcome : ClientOutcome) :
    Except SensorError Bool × SensorState × List ModbusWriteCall :=
  if ¬(1 ≤ address ∧ address ≤ 247) then (.error .validationError, s, [])
  else
    match sensor_write_register s connectOk REG_DEVICE_ADDR [address] outcome with
    | (.ok _, calls) => (.ok true, ⟨address, s.connected⟩, calls)
    | (.error e, calls) => (.error e, s, calls)

/-- The valid baud rates listed in `TEVAASensor.set_baud_rate`. -/
def valid_baudrates : List Nat := [1200, 2400, 4800, 9600, 19200, 38400, 57600, 115200]

/-- `TEVAASensor.set_baud_rate` from `tev_aa_sensor.py` (lines 234-248):
raises `ValueError` unless the rate is in `valid_baudrates`, then returns
the result of writing register 402; the session state is not modified. -/
def set_baud_rate (s : SensorState) (connectOk : Bool) (baudrate : Nat)
    (outcome : ClientOutcome) :
    Except SensorError Bool × SensorState × List ModbusWriteCall :=
  if ¬ baudrate ∈ valid_baudrates then (.error .validationError, s, [])
  else
    match sensor_write_register s connectOk REG_BAUD_RATE [baudrate] outcome with
    | (res, calls) => (res, s, calls)

/-- Claim C1: the CRC16 function is a pure, deterministic function from a
byte sequence to 2 bytes computed with polynomial 0xA001, initial value
0xFFFF, LSB-first per-bit processing, result emitted low byte first; on
every input it matches the spec reference definition, in particular on the
reference request bytes `01 03 00 C8 00 64`. -/
theorem calculate_crc_matches_spec :
    (∀ data : List Nat, calculate_crc data = crcModbusSpec data) ∧
      calculate_crc [0x01, 0x03, 0x00, 0xC8, 0x00, 0x64] = [0xC5, 0xDF] :=
  ⟨calculate_crc_eq_spec, by decide⟩

/-! ## Helper lemmas -/

theorem calculate_crc_length (data : List Nat) : (calculate_crc data).length = 2 := rfl

theorem toBytesBE_length (vs : List Nat) : (toBytesBE vs).length = 2 * vs.length := by
  induction vs with
  | nil => rfl
  | cons v tl ih =>
      simp only [toBytesBE, List.length_cons, ih]
      omega

theorem readRegistersFrom_succ (resp : List Nat) (i k : Nat) :
    readRegistersFrom resp i (k + 1) =
      match readRegisterAt resp i, readRegistersFrom resp (i + 2) k with
      | .ok v, .ok rest => .ok (v :: rest)
      | .error e, _ => .error e
      | .ok _, .error e => .error e := rfl

theorem parse_wrong_length (resp : List Nat) (n : Nat) (h : resp.length ≠ 5 + n * 2) :
    parse_read_registers_response resp n = .error .lengthError := by
  unfold parse_read_registers_response
  rw [if_pos h]

theorem not_index_and_ok (e : ParseError) (he : e ≠ .indexError) (P : List Nat → Prop) :
    (Except.error e : Except ParseError (List Nat)) ≠ .error .indexError ∧
      ∀ regs, (Except.error e : Except ParseError (List Nat)) = .ok regs → P regs := by
  constructor
  · intro h
    exact he (Except.error.inj h)
  · intro regs h
    exact absurd h (by simp)

theorem parse_char (resp : List Nat) (n fc bc : Nat)
    (hlen : resp.length = 5 + n * 2) (hfc : resp[1]? = some fc) (hbc : resp[2]? = some bc) :
    parse_read_registers_response resp n =
      if fc = 0x83 then .error (.deviceException bc)
      else if fc ≠ 0x03 then .error .functionCodeError
      else if bc ≠ n * 2 then .error .byteCountError
      else if resp.drop (resp.length - 2) ≠ calculate_crc (resp.take (resp.length - 2)) then
        .error .crcError
      else readRegistersFrom resp 3 ((bc + 1) / 2) := by
  unfold parse_read_registers_response
  rw [if_neg (by omega)]
  split
  · rename_i heq
    rw [hfc] at heq
    cases heq
  · rename_i fc2 heq
    rw [hfc] at heq
    injection heq with heq
    subst heq
    by_cases h83 : fc = 0x83
    · rw [if_pos h83, if_pos h83]
      split
      · rename_i heq2
        rw [hbc] at heq2
        cases heq2
      · rename_i bc2 heq2
        rw [hbc] at heq2
        injection heq2 with heq2
        subst heq2
        rfl
    · rw [if_neg h83, if_neg h83]
      by_cases h03 : fc ≠ 0x03
      · rw [if_pos h03, if_pos h03]
      · rw [if_neg h03, if_neg h03]
        split
        · rename_i heq2
          rw [hbc] at heq2
          cases heq2
        · rename_i bc2 heq2
          rw [hbc] at heq2
          injection heq2 with heq2
          subst heq2
          rfl

theorem set_device_address_invalid (s : SensorState) (cok : Bool) (address : Nat)
    (o : ClientOutcome) (h : ¬(1 ≤ address ∧ address ≤ 247)) :
    set_device_address s cok address o = (.error .validationError, s, []) := by
  unfold set_device_address
  rw [if_pos h]

theorem set_baud_rate_invalid (s : SensorState) (cok : Bool) (rate : Nat)
    (o : ClientOutcome) (h : ¬ rate ∈ valid_baudrates) :
    set_baud_rate s cok rate o = (.error .validationError, s, []) := by
  unfold set_baud_rate
  rw [if_pos h]

/-! ## Claim theorems -/

/-- Claim C3 counterexample: the 5-byte exception frame
`[1, 0x83, 2, 0, 0]` parsed with requested count 1 is rejected by the
length check, not decoded as the device exception 2 the claim demands. -/
theorem exception_frame_count_cx :
    parse_read_registers_response [1, 0x83, 2, 0, 0] 1 = .error .lengthError ∧
      (Except.error ParseError.lengthError : Except ParseError (List Nat)) ≠
        .error (.deviceException 2) := by
  constructor
  · rfl
  · simp

/-- Claim C3 (amended): a 5-byte exception frame with function code 0x83
and exception byte X is decoded as a device exception carrying X only
when the expected register count is 0, so that the length gate passes;
for every expected count of at least 1 the frame is rejected by the
length check and the exception code is never examined. -/
theorem exception_frame_decode (addr code c1 c2 n : Nat) (hn : 1 ≤ n) :
    parse_read_registers_response [addr, 0x83, code, c1, c2] n = .error .lengthError ∧
      parse_read_registers_response [addr, 0x83, code, c1, c2] 0 =
        .error (.deviceException code) := by
  constructor
  · refine parse_wrong_length _ _ ?_
    simp only [List.length_cons, List.length_nil]
    omega
  · have h1 : [addr, 0x83, code, c1, c2][1]? = (some 0x83 : Option Nat) := rfl
    have h2 : [addr, 0x83, code, c1, c2][2]? = (some code : Option Nat) := rfl
    rw [parse_char _ 0 0x83 code (by simp) h1 h2]
    rfl

theorem exception_frame_decode_witness :
    parse_read_registers_response [1, 0x83, 2, 0, 0] 3 = .error .lengthError ∧
      parse_read_registers_response [1, 0x83, 2, 0, 0] 0 = .error (.deviceException 2) :=
  exception_frame_decode 1 2 0 0 3 (by decide)

/-- Claim C4: for every expected register count n and every byte sequence
whose length is not exactly 5 + 2n, the parser rejects the input with the
length error and decodes zero register values. -/
theorem wrong_length_rejected (resp : List Nat) (n : Nat) (h : resp.length ≠ 5 + 2 * n) :
    parse_read_registers_response resp n = .error .lengthError :=
  parse_wrong_length resp n (by omega)

theorem wrong_length_rejected_witness :
    parse_read_registers_response [1, 3, 2, 0, 7] 2 = .error .lengthError :=
  wrong_length_rejected [1, 3, 2, 0, 7] 2 (by decide)

/-- Claim C5 (code bug): the 1-based to 0-based offset rule is not applied
consistently.  `build_read_registers_request(1, 201, 100)` puts start
address 0x00C9 = 201 on the wire although its own comment and printout
say 0x00C8 = 200; `tev_aa_sensor.py` reads at `address - 1` while the
`tev_aa_simple_gui_v2.py` variant reads at `address` unchanged. -/
theorem address_offset_inconsistent :
    (build_read_registers_request 1 201 100).take 6 = [0x01, 0x03, 0x00, 0xC9, 0x00, 0x64] ∧
      (build_read_registers_request 1 201 100).take 6 ≠ [0x01, 0x03, 0x00, 0xC8, 0x00, 0x64] ∧
      (sensor_read_register ⟨1, true⟩ false 201 100 (.ok [])).2 = [⟨200, 100, 1⟩] ∧
      (guiV2_read_register ⟨1, true⟩ false 201 100 (.ok [])).2 = [⟨201, 100, 1⟩] :=
  ⟨rfl, by decide, rfl, rfl⟩

/-- Claim C6 (code bug): on the same failing exchange the
`tev_aa_sensor.py` variant propagates a typed `IOError` while the
`tev_aa_simple_gui_v2.py` variant swallows the failure and returns
`None`, indistinguishable from absence of data. -/
theorem read_error_swallowed_guiV2 :
    (sensor_read_register ⟨1, true⟩ false 5003 1 .exceptional).1 = .error .ioError ∧
      (sensor_read_register ⟨1, true⟩ false 5003 1 .failure).1 = .error .ioError ∧
      (guiV2_read_register ⟨1, true⟩ false 5003 1 .exceptional).1 = .ok none ∧
      (guiV2_read_register ⟨1, true⟩ false 5003 1 .failure).1 = .ok none :=
  ⟨rfl, rfl, rfl, rfl⟩

/-- Claim C7: for every address outside [1, 247] `set_device_address`
fails with a validation error, and for every rate outside the enumerated
baud rate set `set_baud_rate` fails with a validation error; in both
cases no write call reaches the client and the session state is
unchanged. -/
theorem invalid_settings_rejected (s : SensorState) (cok : Bool) (address rate : Nat)
    (o₁ o₂ : ClientOutcome) (ha : address < 1 ∨ 247 < address)
    (hr : rate ∉ valid_baudrates) :
    set_device_address s cok address o₁ = (.error .validationError, s, []) ∧
      set_baud_rate s cok rate o₂ = (.error .validationError, s, []) :=
  ⟨set_device_address_invalid s cok address o₁ (by omega),
   set_baud_rate_invalid s cok rate o₂ hr⟩

theorem invalid_settings_rejected_witness :
    set_device_address ⟨1, true⟩ true 248 (.ok []) = (.error .validationError, ⟨1, true⟩, []) ∧
      set_baud_rate ⟨1, true⟩ true 9601 (.ok []) = (.error .validationError, ⟨1, true⟩, []) :=
  invalid_settings_rejected ⟨1, true⟩ true 248 9601 (.ok []) (.ok []) (by omega) (by decide)

/-- Claim C8: `_read_register` and `_write_register` require the
connected state; on a session that is not connected and cannot connect
they raise `ConnectionError` and no request/response exchange reaches the
client. -/
theorem ops_require_connected (s : SensorState) (address count : Nat) (values : List Nat)
    (o₁ o₂ : ClientOutcome) (h : s.connected = false) :
    sensor_read_register s false address count o₁ = (.error .connectionError, []) ∧
      sensor_write_register s false address values o₂ = (.error .connectionError, []) := by
  constructor
  · unfold sensor_read_register
    rw [if_neg (by simp [h])]
  · unfold sensor_write_register
    rw [if_neg (by simp [h])]

theorem ops_require_connected_witness :
    sensor_read_register ⟨1, false⟩ false 5003 1 (.ok []) = (.error .connectionError, []) ∧
      sensor_write_register ⟨1, false⟩ false 5003 [5] (.ok []) = (.error .connectionError, []) :=
  ops_require_connected ⟨1, false⟩ 5003 1 [5] (.ok []) (.ok []) rfl

/-- Claim C9: when `set_device_address` is called with an address in
[1, 247] on a connected session and the register write succeeds, the
session state afterwards carries the new device address (so subsequent
frames use it); on a validation failure the active device address is
unchanged. -/
theorem set_device_address_updates_addr (s : SensorState) (cok : Bool) (address : Nat)
    (regs : List Nat) (hconn : s.connected = true) (h1 : 1 ≤ address) (h2 : address ≤ 247) :
    (set_device_address s cok address (.ok regs) =
        (.ok true, ⟨address, s.connected⟩, [⟨REG_DEVICE_ADDR - 1, [address], s.device_addr⟩])) ∧
      ∀ a o, ¬(1 ≤ a ∧ a ≤ 247) →
        (set_device_address s cok a o).2.1.device_addr = s.device_addr := by
  constructor
  · unfold set_device_address
    rw [if_neg (by omega)]
    unfold sensor_write_register
    rw [if_pos (by simp [hconn])]
  · intro a o h
    rw [set_device_address_invalid s cok a o h]

theorem set_device_address_updates_addr_witness :
    set_device_address ⟨1, true⟩ false 5 (.ok []) =
      (.ok true, ⟨5, true⟩, [⟨400, [5], 1⟩]) :=
  (set_device_address_updates_addr ⟨1, true⟩ false 5 [] rfl (by decide) (by decide)).1

theorem readRegistersFrom_append (vs : List Nat) :
    ∀ l₁ l₂ : List Nat, (∀ v ∈ vs, v < 65536) →
      readRegistersFrom (l₁ ++ (toBytesBE vs ++ l₂)) l₁.length vs.length = .ok vs := by
  induction vs with
  | nil => intro l₁ l₂ _; rfl
  | cons v tl ih =>
      intro l₁ l₂ hv
      have hv0 : v < 65536 := hv v (List.mem_cons_self v tl)
      have hvt : ∀ x ∈ tl, x < 65536 := fun x hx => hv x (List.mem_cons_of_mem v hx)
      have hL : l₁ ++ (toBytesBE (v :: tl) ++ l₂) =
          l₁ ++ (v / 256 % 256 :: v % 256 :: (toBytesBE tl ++ l₂)) := by
        simp [toBytesBE]
      have h1 : (l₁ ++ (toBytesBE (v :: tl) ++ l₂))[l₁.length]? = some (v / 256 % 256) := by
        rw [hL, List.getElem?_append_right (Nat.le_refl _), Nat.sub_self]
        simp
      have h2 : (l₁ ++ (toBytesBE (v :: tl) ++ l₂))[l₁.length + 1]? = some (v % 256) := by
        rw [hL, List.getElem?_append_right (by omega)]
        have hone : l₁.length + 1 - l₁.length = 1 := by omega
        rw [hone]
        simp
      have hra : readRegisterAt (l₁ ++ (toBytesBE (v :: tl) ++ l₂)) l₁.length = .ok v := by
        unfold readRegisterAt
        rw [h1, h2]
        show (Except.ok ((v / 256 % 256) <<< 8 + v % 256) : Except ParseError Nat) = .ok v
        have hp : (2 : Nat) ^ 8 = 256 := rfl
        rw [Nat.shiftLeft_eq, hp]
        have harith : v / 256 % 256 * 256 + v % 256 = v := by omega
        rw [harith]
      have hrec : readRegistersFrom (l₁ ++ (toBytesBE (v :: tl) ++ l₂))
          (l₁.length + 2) tl.length = .ok tl := by
        have hL2 : l₁ ++ (toBytesBE (v :: tl) ++ l₂) =
            (l₁ ++ [v / 256 % 256, v % 256]) ++ (toBytesBE tl ++ l₂) := by
          simp [toBytesBE]
        have hlen2 : l₁.length + 2 = (l₁ ++ [v / 256 % 256, v % 256]).length := by simp
        rw [hL2, hlen2]
        exact ih (l₁ ++ [v / 256 % 256, v % 256]) l₂ hvt
      show readRegistersFrom (l₁ ++ (toBytesBE (v :: tl) ++ l₂)) l₁.length (tl.length + 1) =
        .ok (v :: tl)
      rw [readRegistersFrom_succ, hra, hrec]

theorem readRegistersFrom_spec (resp : List Nat) :
    ∀ k i, i + 2 * k ≤ resp.length →
      ∃ regs, readRegistersFrom resp i k = .ok regs ∧ regs.length = k ∧
        (∀ j, j < k →
          regs.getD j 0 = (resp.getD (i + 2 * j) 0) * 256 + resp.getD (i + 2 * j + 1) 0) ∧
        ((∀ b ∈ resp, b < 256) → ∀ v ∈ regs, v < 65536) := by
  intro k
  induction k with
  | zero =>
      intro i _
      exact ⟨[], rfl, rfl, by intro j hj; omega, by intro _ v hv; cases hv⟩
  | succ k ih =>
      intro i h
      have hi : i < resp.length := by omega
      have hi1 : i + 1 < resp.length := by omega
      obtain ⟨rest, hrest, hrlen, hidx, hbnd⟩ := ih (i + 2) (by omega)
      have hra : readRegisterAt resp i = .ok ((resp[i] <<< 8) + resp[i + 1]) := by
        unfold readRegisterAt
        rw [List.getElem?_eq_getElem hi, List.getElem?_eq_getElem hi1]
      refine ⟨((resp[i] <<< 8) + resp[i + 1]) :: rest, ?_, by simp [hrlen], ?_, ?_⟩
      · rw [readRegistersFrom_succ, hra, hrest]
      · intro j hj
        cases j with
        | zero =>
            rw [List.getD_cons_zero]
            have e0 : i + 2 * 0 = i := by omega
            rw [e0, List.getD_eq_getElem resp 0 hi, List.getD_eq_getElem resp 0 hi1]
            rw [Nat.shiftLeft_eq]
        | succ j =>
            rw [List.getD_cons_succ]
            have e1 : i + 2 * (j + 1) = i + 2 + 2 * j := by omega
            rw [e1]
            exact hidx j (by omega)
      · intro hb v hv
        rcases List.mem_cons.mp hv with hh | hh
        · subst hh
          have b1 : resp[i] < 256 := hb _ (List.getElem_mem hi)
          have b2 : resp[i + 1] < 256 := hb _ (List.getElem_mem hi1)
          have hp : (2 : Nat) ^ 8 = 256 := rfl
          rw [Nat.shiftLeft_eq, hp]
          omega
        · exact hbnd hb v hh

/-- Claim C2: for every device address, every register count n of at
least 1 that fits the frame's byte-count byte, and every list of n 16-bit
register values, parsing the well-formed read response frame built from
them with expected count n succeeds and recovers exactly the injected
values in order. -/
theorem parse_build_roundtrip (device_addr : Nat) (values : List Nat) (n : Nat)
    (hn : n = values.length) (hpos : 1 ≤ n) (hv : ∀ v ∈ values, v < 65536)
    (haddr : device_addr < 256) (hcount : 2 * n ≤ 255) :
    parse_read_registers_response (buildReadResponse device_addr values) n = .ok values := by
  subst hn
  rw [show buildReadResponse device_addr values =
      (device_addr :: 0x03 :: 2 * values.length :: toBytesBE values) ++
        calculate_crc (device_addr :: 0x03 :: 2 * values.length :: toBytesBE values) from rfl]
  have hblen : (device_addr :: 0x03 :: 2 * values.length :: toBytesBE values).length =
      3 + 2 * values.length := by
    simp [toBytesBE_length]
    omega
  have hLlen : ((device_addr :: 0x03 :: 2 * values.length :: toBytesBE values) ++
      calculate_crc (device_addr :: 0x03 :: 2 * values.length :: toBytesBE values)).length =
      5 + values.length * 2 := by
    rw [List.length_append, hblen, calculate_crc_length]
    omega
  have hfc : ((device_addr :: 0x03 :: 2 * values.length :: toBytesBE values) ++
      calculate_crc (device_addr :: 0x03 :: 2 * values.length :: toBytesBE values))[1]? =
      some 0x03 := by
    simp
  have hbc : ((device_addr :: 0x03 :: 2 * values.length :: toBytesBE values) ++
      calculate_crc (device_addr :: 0x03 :: 2 * values.length :: toBytesBE values))[2]? =
      some (2 * values.length) := by
    simp
  rw [parse_char _ values.length 0x03 (2 * values.length) hLlen hfc hbc]
  rw [if_neg (by decide)]
  rw [if_neg (by decide)]
  rw [if_neg (by omega)]
  have hsub : ((device_addr :: 0x03 :: 2 * values.length :: toBytesBE values) ++
      calculate_crc (device_addr :: 0x03 :: 2 * values.length :: toBytesBE values)).length - 2 =
      (device_addr :: 0x03 :: 2 * values.length :: toBytesBE values).length := by
    rw [hLlen, hblen]
    omega
  rw [hsub, List.drop_left, List.take_left]
  rw [if_neg (by simp)]
  have hdiv : (2 * values.length + 1) / 2 = values.length := by omega
  rw [hdiv]
  exact readRegistersFrom_append values [device_addr, 0x03, 2 * values.length]
    (calculate_crc (device_addr :: 0x03 :: 2 * values.length :: toBytesBE values)) hv

theorem parse_build_roundtrip_witness :
    parse_read_registers_response (buildReadResponse 1 [4660, 5]) 2 = .ok [4660, 5] :=
  parse_build_roundtrip 1 [4660, 5] 2 rfl (by decide) (by decide) (by decide) (by decide)

/-- Claim C10: the read-response parser is total and exact on arbitrary
byte input: it never hits an out-of-range index (modelled as never
returning the index error), and whenever it returns a value list that
list has exactly n elements, each a 16-bit value below 65536 assembled
big-endian from consecutive payload byte pairs. -/
theorem parse_total_exact (resp : List Nat) (n : Nat) (hbytes : ∀ b ∈ resp, b < 256) :
    parse_read_registers_response resp n ≠ .error .indexError ∧
      ∀ regs, parse_read_registers_response resp n = .ok regs →
        regs.length = n ∧ (∀ v ∈ regs, v < 65536) ∧
        ∀ j, j < n →
          regs.getD j 0 = (resp.getD (3 + 2 * j) 0) * 256 + resp.getD (3 + 2 * j + 1) 0 := by
  by_cases hlen : resp.length = 5 + n * 2
  · have h1 : 1 < resp.length := by omega
    have h2 : 2 < resp.length := by omega
    rw [parse_char resp n resp[1] resp[2] hlen (List.getElem?_eq_getElem h1)
      (List.getElem?_eq_getElem h2)]
    by_cases h83 : resp[1] = 0x83
    · rw [if_pos h83]
      exact not_index_and_ok _ (by simp) _
    · rw [if_neg h83]
      by_cases h03 : resp[1] ≠ 0x03
      · rw [if_pos h03]
        exact not_index_and_ok _ (by simp) _
      · rw [if_neg h03]
        by_cases hbc : resp[2] ≠ n * 2
        · rw [if_pos hbc]
          exact not_index_and_ok _ (by simp) _
        · rw [if_neg hbc]
          by_cases hcrc : resp.drop (resp.length - 2) ≠
              calculate_crc (resp.take (resp.length - 2))
          · rw [if_pos hcrc]
            exact not_index_and_ok _ (by simp) _
          · rw [if_neg hcrc]
            push_neg at hbc
            have hdiv : (resp[2] + 1) / 2 = n := by omega
            rw [hdiv]
            obtain ⟨regs, hregs, hrlen, hidx, hbnd⟩ := readRegistersFrom_spec resp n 3 (by omega)
            rw [hregs]
            constructor
            · simp
            · intro regs2 heq
              injection heq with heq
              subst heq
              exact ⟨hrlen, hbnd hbytes, fun j hj => hidx j hj⟩
  · rw [parse_wrong_length resp n (by omega)]
    exact not_index_and_ok _ (by simp) _

theorem parse_total_exact_witness :
    parse_read_registers_response [1, 3, 2, 0, 7, 249, 134] 1 ≠ .error .indexError ∧
      ∀ regs, parse_read_registers_response [1, 3, 2, 0, 7, 249, 134] 1 = .ok regs →
        regs.length = 1 ∧ (∀ v ∈ regs, v < 65536) ∧
        ∀ j, j < 1 →
          regs.getD j 0 = ([1, 3, 2, 0, 7, 249, 134].getD (3 + 2 * j) 0) * 256 +
            [1, 3, 2, 0, 7, 249, 134].getD (3 + 2 * j + 1) 0 :=
  parse_total_exact [1, 3, 2, 0, 7, 249, 134] 1 (by decide)
